import Mathlib

/-!
# Verification of the Telegram–Gemini relay bot (`Bot.py`)

A shallow embedding of the response-normalization, transport-error,
reply-dispatch and request-building logic of `src/Bot.py`, together with
theorems settling the frozen claims about its specification.

Modelling conventions:
* Parsed JSON values are the inductive `Json`; JSON numbers are modelled as
  integers (no claim involves fractional numbers).
* The Python operations used by the source on parsed JSON (`in`, subscripting
  by a string key, subscripting by an integer, `len`, `dict.get`, truthiness)
  are embedded as total functions into `Except String _`, where `.error`
  models a raised Python exception and carries the exception's message.
* Each `return` site of `call_gemini_api` / `call_gemini_with_image` is
  tagged with the `InferenceResult` variant of the specification; `render`
  recovers the exact string the Python source returns at that site.
* The enclosing `try/except Exception` blocks of the source are the
  `callGeminiTextNormalize` / `callGeminiImageNormalize` wrappers, which
  map every raised exception to the catch-all string of the source.
-/

set_option autoImplicit false

/-- A parsed JSON value, as produced by `response.json()` in the source.
Numbers are modelled as integers. -/
inductive Json where
  | null
  | bool (b : Bool)
  | num (n : Int)
  | str (s : String)
  | arr (elems : List Json)
  | obj (fields : List (String × Json))

/-- The Python type name of a JSON value, as it appears in Python
`TypeError` / `AttributeError` messages. -/
def typeName : Json → String
  | .null => "NoneType"
  | .bool _ => "bool"
  | .num _ => "int"
  | .str _ => "str"
  | .arr _ => "list"
  | .obj _ => "dict"

/-- Lookup of a key in a JSON object's field list. Later bindings win, as in
a Python dict built by `json.loads` when a key occurs twice. -/
def lookupField (fields : List (String × Json)) (key : String) : Option Json :=
  match fields with
  | [] => none
  | (k, v) :: rest =>
    match lookupField rest key with
    | some r => some r
    | none => if k == key then some v else none

/-- Whether `needle` occurs as a substring of `hay` (Python `needle in hay`
for strings; the empty string occurs in every string). -/
def strContains (hay needle : String) : Bool :=
  needle.isEmpty || (hay.splitOn needle).length > 1

/-- Python's `key in value` for a string `key` and a parsed JSON `value`:
key membership for dicts, element equality for lists, substring test for
strings, and a `TypeError` otherwise. Error payloads are `str(e)` of the
raised exception, as interpolated by the source's f-strings. -/
def pyIn (key : String) : Json → Except String Bool
  | .obj fields => .ok (lookupField fields key).isSome
  | .arr elems =>
    .ok (elems.any fun e => match e with | .str s => s == key | _ => false)
  | .str s => .ok (strContains s key)
  | j => .error ("argument of type '" ++ typeName j ++ "' is not iterable")

/-- Python's `value[key]` for a string key: dict lookup raising `KeyError`
when absent (whose `str` is the quoted key), and a `TypeError` on every
non-dict value. -/
def pyGetKey (j : Json) (key : String) : Except String Json :=
  match j with
  | .obj fields =>
    match lookupField fields key with
    | some v => .ok v
    | none => .error ("'" ++ key ++ "'")
  | .arr _ => .error "list indices must be integers or slices, not str"
  | .str _ => .error "string indices must be integers, not 'str'"
  | j => .error ("'" ++ typeName j ++ "' object is not subscriptable")

/-- Python's `value[i]` for a non-negative integer index: list indexing
raising `IndexError` out of range, string indexing yielding a one-character
string, `KeyError` on a JSON dict (whose keys are strings), and a
`TypeError` otherwise. -/
def pyGetIdx (j : Json) (i : Nat) : Except String Json :=
  match j with
  | .arr elems =>
    match elems.get? i with
    | some v => .ok v
    | none => .error "list index out of range"
  | .str s =>
    match s.toList.get? i with
    | some c => .ok (.str (String.mk [c]))
    | none => .error "string index out of range"
  | .obj _ => .error (toString i)
  | j => .error ("'" ++ typeName j ++ "' object is not subscriptable")

/-- Python's `len(value)`: defined on dicts, lists and strings, a
`TypeError` otherwise. -/
def pyLen : Json → Except String Nat
  | .obj fields => .ok fields.length
  | .arr elems => .ok elems.length
  | .str s => .ok s.length
  | j => .error ("object of type '" ++ typeName j ++ "' has no len()")

/-- Python truthiness of a parsed JSON value. -/
def pyTruthy : Json → Bool
  | .null => false
  | .bool b => b
  | .num n => n != 0
  | .str s => !s.isEmpty
  | .arr elems => !elems.isEmpty
  | .obj fields => !fields.isEmpty

/-- Python's `value.get(key, default)`: defined on dicts, an
`AttributeError` on every other value. -/
def pyDictGet (j : Json) (key : String) (default : Json) : Except String Json :=
  match j with
  | .obj fields => .ok ((lookupField fields key).getD default)
  | j => .error ("'" ++ typeName j ++ "' object has no attribute 'get'")

mutual

/-- Python `repr` of a parsed JSON value (used inside container renderings). -/
def pyRepr : Json → String
  | .null => "None"
  | .bool true => "True"
  | .bool false => "False"
  | .num n => toString n
  | .str s => "'" ++ s ++ "'"
  | .arr elems => "[" ++ pyReprElems elems ++ "]"
  | .obj fields => "\x7b" ++ pyReprFields fields ++ "\x7d"

/-- Comma-separated `repr`s of the elements of a Python list. -/
def pyReprElems : List Json → String
  | [] => ""
  | [x] => pyRepr x
  | x :: xs => pyRepr x ++ ", " ++ pyReprElems xs

/-- Comma-separated `key: repr` pairs of a Python dict. -/
def pyReprFields : List (String × Json) → String
  | [] => ""
  | [(k, v)] => "'" ++ k ++ "': " ++ pyRepr v
  | (k, v) :: rest => "'" ++ k ++ "': " ++ pyRepr v ++ ", " ++ pyReprFields rest

end

/-- Python `str` of a parsed JSON value, as interpolated by an f-string. -/
def pyStr : Json → String
  | .str s => s
  | j => pyRepr j

/-- The specification's tagged union of inference outcomes. Each constructor
corresponds to one family of `return` sites in the source; `render` maps a
result back to the exact string the source returns. -/
inductive InferenceResult where
  | text (value : Json)
  | stopped (finishReason : Json)
  | blocked (blockReason : Json)
  | malformed (message : String)
  | transportError (message : String)

/-- The exact string the Python source returns for each result. -/
def render : InferenceResult → String
  | .text v => pyStr v
  | .stopped r => "Generation stopped: " ++ pyStr r ++ ". Try a different question."
  | .blocked r => "Request blocked: " ++ pyStr r ++ "."
  | .malformed m => m
  | .transportError m => m

/-- The variant tag of an `InferenceResult` (for stating that exactly one
variant holds). -/
def variantTag : InferenceResult → Fin 5
  | .text _ => 0
  | .stopped _ => 1
  | .blocked _ => 2
  | .malformed _ => 3
  | .transportError _ => 4

/-- The text-flow response normalization of `call_gemini_api`
(src/Bot.py lines 41–52), with Python's evaluation order and short-circuit
`and` reproduced exactly. An `.error` is a Python exception escaping this
block into the enclosing `try`. -/
def normalizeText (responseJson : Json) : Except String InferenceResult := do
  let hasCandidates ← pyIn "candidates" responseJson
  let cond1 ←
    if hasCandidates then do
      let cs ← pyGetKey responseJson "candidates"
      let n ← pyLen cs
      pure (decide (0 < n))
    else pure false
  if cond1 then
    let cs ← pyGetKey responseJson "candidates"
    let candidate ← pyGetIdx cs 0
    let hasContent ← pyIn "content" candidate
    let cond2 ←
      if hasContent then do
        let content ← pyGetKey candidate "content"
        let hasParts ← pyIn "parts" content
        if hasParts then do
          let content2 ← pyGetKey candidate "content"
          let parts ← pyGetKey content2 "parts"
          let n ← pyLen parts
          pure (decide (0 < n))
        else pure false
      else pure false
    if cond2 then
      let content ← pyGetKey candidate "content"
      let parts ← pyGetKey content "parts"
      let p0 ← pyGetIdx parts 0
      let t ← pyDictGet p0 "text" (.str "No text found in the response.")
      pure (.text t)
    else
      let hasFinish ← pyIn "finishReason" candidate
      if hasFinish then
        let fr ← pyGetKey candidate "finishReason"
        pure (.stopped fr)
      else
        pure (.malformed "Failed to process the response from the AI (unexpected structure).")
  else
    let hasPF ← pyIn "promptFeedback" responseJson
    let condPF ←
      if hasPF then do
        let pf ← pyGetKey responseJson "promptFeedback"
        pyIn "blockReason" pf
      else pure false
    if condPF then
      let pf ← pyGetKey responseJson "promptFeedback"
      let br ← pyGetKey pf "blockReason"
      pure (.blocked br)
    else
      pure (.malformed "Failed to get a valid response from the AI.")

/-- The text flow applied to a decoded response body: the `except Exception`
handler of `call_gemini_api` turns every raised exception into the
`"Sorry, an error occurred: ..."` string. -/
def callGeminiTextNormalize (j : Json) : InferenceResult :=
  match normalizeText j with
  | .ok r => r
  | .error e => .transportError ("Sorry, an error occurred: " ++ e)

/-- The unguarded drill-down
`response_json["candidates"][0]["content"]["parts"][0].get("text", ...)` of
`call_gemini_with_image` (src/Bot.py line 85), applied to the value of the
`candidates` key. -/
def imageDrill (cs : Json) : Except String InferenceResult :=
  match pyGetIdx cs 0 with
  | .error e => .error e
  | .ok c0 =>
    match pyGetKey c0 "content" with
    | .error e => .error e
    | .ok content =>
      match pyGetKey content "parts" with
      | .error e => .error e
      | .ok parts =>
        match pyGetIdx parts 0 with
        | .error e => .error e
        | .ok p0 =>
          match pyDictGet p0 "text" (.str "No response text found.") with
          | .error e => .error e
          | .ok t => .ok (.text t)

/-- The image-flow response normalization of `call_gemini_with_image`
(src/Bot.py lines 84–87): a short-circuit membership-and-truthiness test on
`candidates`, then the unguarded drill-down. The source subscripts
`response_json["candidates"]` twice (once in the condition, once in the
drill-down); the two evaluations of this pure dict access are identical, so
the second is shared here. -/
def normalizeImage (responseJson : Json) : Except String InferenceResult :=
  match pyIn "candidates" responseJson with
  | .error e => .error e
  | .ok hasCandidates =>
    if hasCandidates then
      match pyGetKey responseJson "candidates" with
      | .error e => .error e
      | .ok cs =>
        if pyTruthy cs then imageDrill cs
        else .ok (.malformed "Couldn't get a valid response from the AI.")
    else .ok (.malformed "Couldn't get a valid response from the AI.")

/-- The image flow applied to a decoded response body: the `except Exception`
handler of `call_gemini_with_image` turns every raised exception into the
`"An error occurred: ..."` string. -/
def callGeminiImageNormalize (j : Json) : InferenceResult :=
  match normalizeImage j with
  | .ok r => r
  | .error e => .transportError ("An error occurred: " ++ e)

/-- Outcome of the single `requests.post` + `raise_for_status` +
`response.json()` sequence: either a transport-level failure (timeout,
connection error, non-2xx status, body that is not JSON) with the
exception's message, or a successfully decoded JSON body. -/
inductive TransportOutcome where
  | failure (message : String)
  | success (body : Json)

/-- `call_gemini_api` as a function of the transport outcome: a failure is
caught by the `except Exception` handler; a success is normalized. -/
def callGeminiApi : TransportOutcome → InferenceResult
  | .failure e => .transportError ("Sorry, an error occurred: " ++ e)
  | .success j => callGeminiTextNormalize j

/-- `call_gemini_with_image` as a function of the transport outcome. -/
def callGeminiWithImage : TransportOutcome → InferenceResult
  | .failure e => .transportError ("An error occurred: " ++ e)
  | .success j => callGeminiImageNormalize j

/-- `call_gemini_api` with the number of HTTP POST attempts it makes made
explicit: the body of the source contains exactly one `requests.post`, not
in any loop, so exactly the first outcome of the supply is consumed. -/
def callGeminiApiCounted (attempts : Nat → TransportOutcome) : InferenceResult × Nat :=
  (callGeminiApi (attempts 0), 1)

/-- `call_gemini_with_image` with its POST attempt count made explicit;
the source likewise performs a single `requests.post`. -/
def callGeminiWithImageCounted (attempts : Nat → TransportOutcome) : InferenceResult × Nat :=
  (callGeminiWithImage (attempts 0), 1)

/-- The reply-sending phase of `handle_message` (src/Bot.py lines 118–122):
`send` models `update.message.reply_text`, whose failures are Python
exceptions. The first send is guarded by `try/except`; on failure the
handler sends the fixed fallback string, itself unguarded. -/
def replyPhaseText (send : String → Except String Unit) (aiResponse : String) :
    Except String Unit :=
  match send aiResponse with
  | .ok _ => .ok ()
  | .error _ => send "An error occurred while sending the reply."

/-- The reply-sending phase of `handle_image` (src/Bot.py line 140): a single
unguarded send. -/
def replyPhaseImage (send : String → Except String Unit) (aiResponse : String) :
    Except String Unit :=
  send aiResponse

/-- The sextet stream of standard base64 encoding (RFC 4648, as implemented
by Python's `base64.b64encode`): bytes are consumed three at a time, a final
group of one or two bytes yields two or three sextets. -/
def encBytes : List Nat → List Nat
  | [] => []
  | [b0] => [b0 / 4, b0 % 4 * 16]
  | [b0, b1] => [b0 / 4, b0 % 4 * 16 + b1 / 16, b1 % 16 * 4]
  | b0 :: b1 :: b2 :: rest =>
    b0 / 4 :: (b0 % 4 * 16 + b1 / 16) :: (b1 % 16 * 4 + b2 / 64) :: b2 % 64 :: encBytes rest

/-- Base64 sextet-stream decoding: four sextets back to three bytes, a final
group of two or three sextets back to one or two bytes. -/
def decBytes : List Nat → List Nat
  | s0 :: s1 :: s2 :: s3 :: rest =>
    (s0 * 4 + s1 / 16) :: (s1 % 16 * 16 + s2 / 4) :: (s2 % 4 * 64 + s3) :: decBytes rest
  | [s0, s1] => [s0 * 4 + s1 / 16]
  | [s0, s1, s2] => [s0 * 4 + s1 / 16, s1 % 16 * 16 + s2 / 4]
  | _ => []

/-- The standard base64 alphabet. -/
def b64Alphabet : List Char :=
  "ABCDEFGHIJKLMNOPQRSTUVWXYZabcdefghijklmnopqrstuvwxyz0123456789+/".toList

/-- The alphabet character of a sextet. -/
def sextetChar (n : Nat) : Char := b64Alphabet.getD n 'A'

/-- The sextet of an alphabet character. -/
def charSextet (c : Char) : Nat := b64Alphabet.indexOf c

/-- `base64.b64encode` on a byte sequence: the alphabet characters of the
sextet stream, padded with `=` to a multiple of four characters. -/
def b64encode (bs : List Nat) : List Char :=
  (encBytes bs).map sextetChar ++
    List.replicate ((4 - (encBytes bs).length % 4) % 4) '='

/-- The inverse of base64 encoding: strip padding, map characters back to
sextets, decode the sextet stream. -/
def b64decode (cs : List Char) : List Nat :=
  decBytes ((cs.filter (fun c => c != '=')).map charSextet)

/-- A part of the Gemini request payload's single content block. -/
inductive PayloadPart where
  | textPart (s : String)
  | inlineData (mimeType : String) (data : List Char)

/-- The `parts` list of the image-variant request payload built by
`call_gemini_with_image` (src/Bot.py lines 62–74): the prompt text, then the
base64-encoded image bytes tagged `image/jpeg`. -/
def buildImageParts (prompt : String) (imageBytes : List Nat) : List PayloadPart :=
  [.textPart prompt, .inlineData "image/jpeg" (b64encode imageBytes)]

/-- A response whose only interesting content is
`candidates[0].content.parts[0].text = s`. -/
def responseWithText (s : String) : Json :=
  .obj [("candidates", .arr [.obj [("content", .obj [("parts", .arr [.obj [("text", .str s)]])])]])]

/-- A response whose first candidate carries `finishReason = "SAFETY"` and
no parts. -/
def responseStoppedSafety : Json :=
  .obj [("candidates", .arr [.obj [("finishReason", .str "SAFETY")]])]

/-- A response carrying `promptFeedback.blockReason = "OTHER"` and no
`candidates` key. -/
def responseBlockedOther : Json :=
  .obj [("promptFeedback", .obj [("blockReason", .str "OTHER")])]

/-- A response whose first candidate has a non-empty `content.parts` whose
first part lacks a `text` key, alongside a `finishReason` field. -/
def responsePartsNoText (fr : Json) : Json :=
  .obj [("candidates",
    .arr [.obj [("content", .obj [("parts", .arr [.obj []])]), ("finishReason", fr)]])]

theorem except_bind_ok {α β : Type} (a : α) (f : α → Except String β) :
    (Except.ok a >>= f : Except String β) = f a := rfl

theorem except_bind_err {α β : Type} (e : String) (f : α → Except String β) :
    (Except.error e >>= f : Except String β) = Except.error e := rfl

/-- C7: for a response in which `candidates[0].content.parts[0].text` equals a
string `s` (in particular `"hello"`), the text-flow normalizer returns
`Text(s)` — exactly the string found at that path — and renders it as `s`. -/
theorem text_path_returns_text (s : String) :
    callGeminiTextNormalize (responseWithText s) = .text (.str s) ∧
    render (callGeminiTextNormalize (responseWithText s)) = s := by
  exact ⟨rfl, rfl⟩

/-- C8: for a response in which `candidates[0].finishReason = "SAFETY"` and the
candidate has no parts, the text-flow normalizer returns `Stopped("SAFETY")`,
rendered as the cut-short message suggesting a different question. -/
theorem safety_finish_returns_stopped :
    callGeminiTextNormalize responseStoppedSafety = .stopped (.str "SAFETY") ∧
    render (callGeminiTextNormalize responseStoppedSafety) =
      "Generation stopped: SAFETY. Try a different question." := by
  exact ⟨rfl, rfl⟩

/-- C9: for a response carrying `promptFeedback.blockReason = "OTHER"` and no
`candidates` key, the text-flow normalizer returns `Blocked("OTHER")`. -/
theorem block_reason_returns_blocked :
    callGeminiTextNormalize responseBlockedOther = .blocked (.str "OTHER") ∧
    render (callGeminiTextNormalize responseBlockedOther) = "Request blocked: OTHER." := by
  exact ⟨rfl, rfl⟩

/-- C1 fails on the code: for the response whose first candidate has
`content.parts = [{}]` (a present, non-empty parts list whose first part has
no `text` key) together with `finishReason = "STOP"`, the text-flow
normalizer does not return `Stopped("STOP")`: the `.get` default short-circuits
the claimed fall-through and the call returns the default text instead. -/
theorem parts_no_text_not_stopped :
    callGeminiTextNormalize (responsePartsNoText (.str "STOP")) =
      .text (.str "No text found in the response.") ∧
    callGeminiTextNormalize (responsePartsNoText (.str "STOP")) ≠
      .stopped (.str "STOP") := by
  refine ⟨rfl, fun h => ?_⟩
  exact InferenceResult.noConfusion h

/-- C1 (amended): when `candidates[0].content.parts` is present and non-empty
but `parts[0]` has no `text` key, the text flow returns the `.get` default
`Text("No text found in the response.")`, for every value of the candidate's
`finishReason` field; the `finishReason` branch is never reached from this
shape. -/
theorem parts_no_text_returns_default (fr : Json) :
    callGeminiTextNormalize (responsePartsNoText fr) =
      .text (.str "No text found in the response.") := rfl

/-- C2: the text flow is total over every JSON value: the result of the inner
normalization is returned verbatim when no exception is raised, every raised
exception is converted into a result rather than propagated, and exactly one
`InferenceResult` variant holds of the outcome. -/
theorem text_flow_total (j : Json) :
    (∀ r, normalizeText j = .ok r → callGeminiTextNormalize j = r) ∧
    (∀ e, normalizeText j = .error e →
      callGeminiTextNormalize j = .transportError ("Sorry, an error occurred: " ++ e)) ∧
    ∃! t : Fin 5, variantTag (callGeminiTextNormalize j) = t := by
  refine ⟨?_, ?_, ?_⟩
  · intro r hr
    simp [callGeminiTextNormalize, hr]
  · intro e he
    simp [callGeminiTextNormalize, he]
  · exact ⟨variantTag (callGeminiTextNormalize j), rfl, fun t ht => ht.symm⟩

theorem text_flow_total_witness :
    callGeminiTextNormalize (.num 7) =
      .transportError
        "Sorry, an error occurred: argument of type 'int' is not iterable" :=
  (text_flow_total (.num 7)).2.1 "argument of type 'int' is not iterable" rfl

/-- C10: every exception raised while normalizing a successfully decoded
response body (for example when the body is not a JSON object) is caught by
the same catch-all handler as transport failures and surfaced in the
transport-error format, never as a MalformedResponse diagnostic; a transport
failure carrying the same message yields the identical result. -/
theorem normalize_exception_transport_format (j : Json) (e : String)
    (h : normalizeText j = .error e) :
    callGeminiTextNormalize j = .transportError ("Sorry, an error occurred: " ++ e) ∧
    (∀ m, callGeminiTextNormalize j ≠ .malformed m) ∧
    callGeminiApi (.failure e) = callGeminiTextNormalize j := by
  have h1 : callGeminiTextNormalize j =
      .transportError ("Sorry, an error occurred: " ++ e) := by
    simp [callGeminiTextNormalize, h]
  refine ⟨h1, fun m hm => ?_, ?_⟩
  · rw [h1] at hm
    exact InferenceResult.noConfusion hm
  · rw [h1]
    rfl

theorem normalize_exception_transport_format_witness :
    callGeminiTextNormalize .null ≠
      .malformed "Failed to get a valid response from the AI." :=
  (normalize_exception_transport_format .null
    "argument of type 'NoneType' is not iterable" rfl).2.1
    "Failed to get a valid response from the AI."

/-- C4: every transport-level failure of the inference HTTP call is returned
as a `TransportError` carrying the underlying failure's description, with
exactly one POST attempt consumed (no retry) and no propagated exception, in
both the text and the image flow. -/
theorem transport_failure_no_retry (e : String) (attempts : Nat → TransportOutcome)
    (h : attempts 0 = .failure e) :
    callGeminiApiCounted attempts =
      (.transportError ("Sorry, an error occurred: " ++ e), 1) ∧
    callGeminiWithImageCounted attempts =
      (.transportError ("An error occurred: " ++ e), 1) := by
  simp [callGeminiApiCounted, callGeminiWithImageCounted, callGeminiApi,
    callGeminiWithImage, h]

theorem transport_failure_no_retry_witness :
    callGeminiApiCounted (fun _ => .failure "HTTPSConnectionPool: Read timed out") =
      (.transportError "Sorry, an error occurred: HTTPSConnectionPool: Read timed out", 1) :=
  (transport_failure_no_retry "HTTPSConnectionPool: Read timed out"
    (fun _ => .failure "HTTPSConnectionPool: Read timed out") rfl).1

/-- C5 fails on the code: the photo handler's reply send (src/Bot.py line 140)
is unguarded, so at this concrete failing send the failure propagates out of
the handler instead of being caught, logged and masked. -/
theorem image_reply_failure_propagates :
    replyPhaseImage (fun _ => .error "Forbidden: bot was blocked by the user") "hi" =
      .error "Forbidden: bot was blocked by the user" ∧
    replyPhaseImage (fun _ => .error "Forbidden: bot was blocked by the user") "hi" ≠
      .ok () := by
  refine ⟨rfl, fun h => Except.noConfusion h⟩

/-- C5 (amended): only the text handler guards its reply send: a failure of
the initial send is caught and answered with the fixed fallback send (whose
own failure would propagate), while the photo handler performs a single
unguarded send, so its send failures propagate out of the handler. -/
theorem reply_send_handling (send : String → Except String Unit) (ai : String) :
    (∀ u, send ai = .ok u → replyPhaseText send ai = .ok ()) ∧
    (∀ e, send ai = .error e →
      replyPhaseText send ai = send "An error occurred while sending the reply.") ∧
    replyPhaseImage send ai = send ai := by
  refine ⟨?_, ?_, rfl⟩
  · intro u hu
    simp [replyPhaseText, hu]
  · intro e he
    simp [replyPhaseText, he]

theorem reply_send_handling_witness :
    replyPhaseText (fun _ => .ok ()) "Paris" = .ok () :=
  (reply_send_handling (fun _ => .ok ()) "Paris").1 () rfl

theorem except_pure_bind {α β : Type} (a : α) (f : α → Except String β) :
    (pure a >>= f : Except String β) = f a := rfl

/-- Every run of the image-flow drill-down ends in extracted text or a raised
exception. -/
theorem imageDrill_shape (cs : Json) :
    (∃ v, imageDrill cs = .ok (.text v)) ∨ (∃ e, imageDrill cs = .error e) := by
  unfold imageDrill
  repeat' split
  all_goals first
    | exact Or.inr ⟨_, rfl⟩
    | exact Or.inl ⟨_, rfl⟩

/-- Every run of the image-flow normalization ends in extracted text, the
generic failure message, or a raised exception: the `Stopped` and `Blocked`
branches do not exist in `call_gemini_with_image`. -/
theorem normalizeImage_shape (j : Json) :
    (∃ v, normalizeImage j = .ok (.text v)) ∨
    normalizeImage j = .ok (.malformed "Couldn't get a valid response from the AI.") ∨
    (∃ e, normalizeImage j = .error e) := by
  unfold normalizeImage
  split
  · exact Or.inr (Or.inr ⟨_, rfl⟩)
  · split
    · split
      · exact Or.inr (Or.inr ⟨_, rfl⟩)
      · split
        · rcases imageDrill_shape _ with ⟨v, hv⟩ | ⟨e, he⟩
          · exact Or.inl ⟨v, hv⟩
          · exact Or.inr (Or.inr ⟨e, he⟩)
        · exact Or.inr (Or.inl rfl)
    · exact Or.inr (Or.inl rfl)

/-- C3 fails as stated: the JSON response `5` lacks a non-empty `candidates`
array, yet the image flow does not return the generic failure message — the
membership test raises a `TypeError`, which the catch-all converts into the
error-format string instead. -/
theorem image_flow_counterexample :
    callGeminiImageNormalize (.num 5) =
      .transportError "An error occurred: argument of type 'int' is not iterable" ∧
    callGeminiImageNormalize (.num 5) ≠
      .malformed "Couldn't get a valid response from the AI." := by
  refine ⟨rfl, fun h => InferenceResult.noConfusion h⟩

/-- C3 (amended): the image flow never returns a `Stopped` or `Blocked`
result; it returns the generic failure message exactly on the responses where
the `candidates` test of line 84 completes without raising and comes out
falsy — the membership test yields `False` (so in particular on every object
without the key and on every array or string not containing it), or the
`candidates` value itself is falsy; when that test raises, the exception
surfaces as the catch-all error-format string instead; and on the response
carrying `promptFeedback.blockReason` and no candidates the image flow and
the text flow return different results. -/
theorem image_flow_no_stop_block (j : Json) :
    (∀ v, callGeminiImageNormalize j ≠ .stopped v ∧
      callGeminiImageNormalize j ≠ .blocked v) ∧
    (pyIn "candidates" j = .ok false →
      callGeminiImageNormalize j =
        .malformed "Couldn't get a valid response from the AI.") ∧
    (∀ cs, pyIn "candidates" j = .ok true → pyGetKey j "candidates" = .ok cs →
      pyTruthy cs = false →
      callGeminiImageNormalize j =
        .malformed "Couldn't get a valid response from the AI.") ∧
    (∀ e, pyIn "candidates" j = .error e →
      callGeminiImageNormalize j = .transportError ("An error occurred: " ++ e)) ∧
    callGeminiImageNormalize responseBlockedOther ≠
      callGeminiTextNormalize responseBlockedOther := by
  refine ⟨?_, ?_, ?_, ?_, ?_⟩
  · intro v
    rcases normalizeImage_shape j with ⟨w, hw⟩ | hm | ⟨e, he⟩
    · rw [callGeminiImageNormalize, hw]
      exact ⟨fun h' => InferenceResult.noConfusion h', fun h' => InferenceResult.noConfusion h'⟩
    · rw [callGeminiImageNormalize, hm]
      exact ⟨fun h' => InferenceResult.noConfusion h', fun h' => InferenceResult.noConfusion h'⟩
    · rw [callGeminiImageNormalize, he]
      exact ⟨fun h' => InferenceResult.noConfusion h', fun h' => InferenceResult.noConfusion h'⟩
  · intro hfalse
    have himg : normalizeImage j =
        .ok (.malformed "Couldn't get a valid response from the AI.") := by
      unfold normalizeImage
      rw [hfalse]
      rfl
    rw [callGeminiImageNormalize, himg]
  · intro cs htrue hcs hfalsy
    have himg : normalizeImage j =
        .ok (.malformed "Couldn't get a valid response from the AI.") := by
      unfold normalizeImage
      rw [htrue]
      show (match pyGetKey j "candidates" with
            | .error e => (.error e : Except String InferenceResult)
            | .ok cs =>
              if pyTruthy cs then imageDrill cs
              else .ok (.malformed "Couldn't get a valid response from the AI.")) =
        .ok (.malformed "Couldn't get a valid response from the AI.")
      rw [hcs]
      show (if pyTruthy cs then imageDrill cs
            else .ok (.malformed "Couldn't get a valid response from the AI.")) =
        .ok (.malformed "Couldn't get a valid response from the AI.")
      rw [hfalsy]
      rfl
    rw [callGeminiImageNormalize, himg]
  · intro e herr
    have himg : normalizeImage j = .error e := by
      unfold normalizeImage
      rw [herr]
    rw [callGeminiImageNormalize, himg]
  · exact fun h' => InferenceResult.noConfusion h'

theorem image_flow_no_stop_block_witness :
    callGeminiImageNormalize (.obj []) =
      .malformed "Couldn't get a valid response from the AI." ∧
    callGeminiImageNormalize (.arr []) =
      .malformed "Couldn't get a valid response from the AI." ∧
    callGeminiImageNormalize (.obj [("candidates", .arr [])]) =
      .malformed "Couldn't get a valid response from the AI." ∧
    callGeminiImageNormalize (.bool true) =
      .transportError "An error occurred: argument of type 'bool' is not iterable" :=
  ⟨(image_flow_no_stop_block (.obj [])).2.1 rfl,
   (image_flow_no_stop_block (.arr [])).2.1 rfl,
   (image_flow_no_stop_block (.obj [("candidates", .arr [])])).2.2.1 (.arr []) rfl rfl rfl,
   (image_flow_no_stop_block (.bool true)).2.2.2.1
     "argument of type 'bool' is not iterable" rfl⟩

/-- Decoding inverts encoding on the sextet stream, for byte inputs. -/
theorem decBytes_encBytes : ∀ bs : List Nat, (∀ b ∈ bs, b < 256) →
    decBytes (encBytes bs) = bs
  | [], _ => rfl
  | [b0], h => by
    have h0 : b0 < 256 := h b0 (by simp)
    simp only [encBytes, decBytes, List.cons.injEq, and_true]
    omega
  | [b0, b1], h => by
    have h0 : b0 < 256 := h b0 (by simp)
    have h1 : b1 < 256 := h b1 (by simp)
    simp only [encBytes, decBytes, List.cons.injEq, and_true]
    constructor <;> omega
  | b0 :: b1 :: b2 :: rest, h => by
    have h0 : b0 < 256 := h b0 (by simp)
    have h1 : b1 < 256 := h b1 (by simp)
    have h2 : b2 < 256 := h b2 (by simp)
    have ih := decBytes_encBytes rest (fun b hb => h b (by simp at hb ⊢; tauto))
    simp only [encBytes, decBytes, ih, List.cons.injEq, and_true]
    refine ⟨by omega, by omega, by omega⟩

/-- Every sextet produced by the encoder is below 64. -/
theorem encBytes_lt : ∀ bs : List Nat, (∀ b ∈ bs, b < 256) →
    ∀ s ∈ encBytes bs, s < 64
  | [], _ => by simp [encBytes]
  | [b0], h => by
    have h0 : b0 < 256 := h b0 (by simp)
    intro s hs
    simp only [encBytes, List.mem_cons, List.not_mem_nil, or_false] at hs
    rcases hs with rfl | rfl <;> omega
  | [b0, b1], h => by
    have h0 : b0 < 256 := h b0 (by simp)
    have h1 : b1 < 256 := h b1 (by simp)
    intro s hs
    simp only [encBytes, List.mem_cons, List.not_mem_nil, or_false] at hs
    rcases hs with rfl | rfl | rfl <;> omega
  | b0 :: b1 :: b2 :: rest, h => by
    have h0 : b0 < 256 := h b0 (by simp)
    have h1 : b1 < 256 := h b1 (by simp)
    have h2 : b2 < 256 := h b2 (by simp)
    have ih := encBytes_lt rest (fun b hb => h b (by simp at hb ⊢; tauto))
    intro s hs
    simp only [encBytes, List.mem_cons] at hs
    rcases hs with rfl | rfl | rfl | rfl | hs
    · omega
    · omega
    · omega
    · omega
    · exact ih s hs

/-- The alphabet map is injective with `charSextet` as its left inverse. -/
theorem charSextet_sextetChar : ∀ n : Fin 64, charSextet (sextetChar n.val) = n.val := by
  decide

/-- No alphabet character is the padding character. -/
theorem sextetChar_ne_pad : ∀ n : Fin 64, sextetChar n.val ≠ '=' := by
  decide

/-- Filtering the padding out of a padding run leaves nothing. -/
theorem filter_pad_replicate : ∀ k : Nat,
    (List.replicate k '=').filter (fun c => c != '=') = []
  | 0 => rfl
  | k + 1 => by
    simp only [List.replicate_succ, List.filter_cons]
    simp [filter_pad_replicate k]

/-- Base64 decoding inverts base64 encoding on every byte sequence. -/
theorem b64decode_b64encode (bs : List Nat) (h : ∀ b ∈ bs, b < 256) :
    b64decode (b64encode bs) = bs := by
  unfold b64encode b64decode
  rw [List.filter_append, filter_pad_replicate]
  have hmap : ((encBytes bs).map sextetChar).filter (fun c => c != '=') =
      (encBytes bs).map sextetChar := by
    apply List.filter_eq_self.mpr
    intro c hc
    rcases List.mem_map.mp hc with ⟨s, hs, rfl⟩
    have hlt : s < 64 := encBytes_lt bs h s hs
    have hne := sextetChar_ne_pad ⟨s, hlt⟩
    simpa using hne
  rw [hmap, List.append_nil, List.map_map]
  have hid : (encBytes bs).map (charSextet ∘ sextetChar) = (encBytes bs).map id := by
    apply List.map_congr_left
    intro s hs
    exact charSextet_sextetChar ⟨s, encBytes_lt bs h s hs⟩
  rw [hid, List.map_id]
  exact decBytes_encBytes bs h

/-- C6: for every triple of prompt, image bytes and MIME type, the
image-variant request payload contains exactly two parts in order — first a
text part holding the prompt, then an inline-data part — and base64-decoding
the inline-data part's payload yields exactly the image bytes. (The source
fixes the MIME type to `image/jpeg` regardless of the quantified one.) -/
theorem image_payload_roundtrip (prompt : String) (imageBytes : List Nat)
    (_mimeType : String) (h : ∀ b ∈ imageBytes, b < 256) :
    (buildImageParts prompt imageBytes).length = 2 ∧
    (buildImageParts prompt imageBytes).get? 0 = some (.textPart prompt) ∧
    (buildImageParts prompt imageBytes).get? 1 =
      some (.inlineData "image/jpeg" (b64encode imageBytes)) ∧
    b64decode (b64encode imageBytes) = imageBytes :=
  ⟨rfl, rfl, rfl, b64decode_b64encode imageBytes h⟩

theorem image_payload_roundtrip_witness :
    b64decode (b64encode [77, 97, 110, 0, 255]) = [77, 97, 110, 0, 255] :=
  (image_payload_roundtrip "What is in this image?" [77, 97, 110, 0, 255]
    "image/jpeg" (by decide)).2.2.2
